import Mathlib

/-!
Shallow embedding of the aily dashboard control plane (src/dashboard) and
proofs about its behaviour.

Conventions used throughout:
- Python strings are Lean `String`s; `str[:n]` is `String.take`, `len` is
  `String.length` (the names involved are ASCII, where characters and
  bytes coincide).
- A Python value that may be `None` is an `Option`; a dict field read with
  `.get(k)` is an `Option` field, `.get(k, d)` is `Option.getD`.
- External effects (SSH exit codes, SHA-256, HMAC, wall-clock time,
  platform lookups) are passed in as explicit function arguments, so every
  definition stays executable and the theorems quantify over the
  environment.
- Each embedded function carries a comment naming the source location it
  was translated from.
-/

namespace Aily

/-- Python `str.strip()` whitespace set, restricted to the ASCII whitespace
characters (space, tab, newline, carriage return, vertical tab, form feed);
the non-ASCII Unicode spaces Python also strips never occur in the inputs
modelled here. -/
def pyWhitespace (c : Char) : Bool :=
  c = ' ' || c = '\t' || c = '\n' || c = '\r' ||
    c = Char.ofNat 11 || c = Char.ofNat 12

/-- Python `str.strip()`: drop leading and trailing whitespace. -/
def pyStrip (s : String) : String :=
  ⟨((s.data.dropWhile pyWhitespace).reverse.dropWhile pyWhitespace).reverse⟩

/-- A character of the session-name class `[a-zA-Z0-9_-]`
(src/dashboard/services/session_service.py:18). -/
def isNameChar (c : Char) : Bool :=
  c.isAlpha || c.isDigit || c = '_' || c = '-'

/-- Truthiness of `re.match(r"^[a-zA-Z0-9_-]+$", s)`: one or more name
characters spanning the whole string, where Python's `$` also matches just
before a single trailing newline. -/
def session_name_re_match (s : String) : Bool :=
  let cs := s.data
  let core := if cs.getLast? = some '\n' then cs.dropLast else cs
  !core.isEmpty && core.all isNameChar

/-- `SessionService.is_valid_session_name`
(src/dashboard/services/session_service.py:35-41): regex match and length
at most 64. -/
def is_valid_session_name (name : String) : Bool :=
  session_name_re_match name && decide (name.length ≤ 64)

/-- Characters `shlex.quote` leaves unquoted: the complement of
the regex class of non-word, non-punctuation characters in `shlex`
(re.ASCII), i.e. ASCII word characters plus `@ % + = : , .` slash `-`. -/
def shlexSafeChar (c : Char) : Bool :=
  c.isAlpha || c.isDigit || c = '_' || c = '@' || c = '%' || c = '+' ||
    c = '=' || c = ':' || c = ',' || c = '.' || c = '/' || c = '-'

/-- Python `shlex.quote(s)`: `''` for the empty string, `s` unchanged when
every character is safe, otherwise single-quoted with embedded single
quotes rewritten to `'"'"'`. -/
def shlex_quote (s : String) : String :=
  if s = "" then "''"
  else if s.data.all shlexSafeChar then s
  else "'" ++ (s.replace "'" "'\"'\"'") ++ "'"

/-- One observable step of the remote-exec transcript: an SSH invocation of
a command string on a host, or an `asyncio.sleep` of a given number of
milliseconds. -/
inductive RemoteOp where
  | invoke (host cmd : String)
  | sleepMs (ms : Nat)
  deriving DecidableEq, Repr

/-- `SEND_KEYS_DELAY = 0.3` seconds (src/dashboard/ssh.py:22), in ms. -/
def SEND_KEYS_DELAY_MS : Nat := 300

/-- `ssh.send_to_tmux` (src/dashboard/ssh.py:105-139). `rc i` is the exit
code `run_ssh` returns for the i-th SSH invocation this call makes (in
program order). Returns the Python result together with the transcript of
remote operations performed. -/
def send_to_tmux (rc : Nat → Int) (host session message : String) :
    Bool × List RemoteOp :=
  let safe_session := shlex_quote session
  let safe_message := shlex_quote message
  let cmd1 := "tmux send-keys -t " ++ safe_session ++ " " ++ safe_message
  if rc 0 ≠ 0 then
    (false, [RemoteOp.invoke host cmd1])
  else
    let cmd2 := "tmux send-keys -t " ++ safe_session ++ " Enter"
    (rc 1 == 0,
      [RemoteOp.invoke host cmd1, RemoteOp.sleepMs SEND_KEYS_DELAY_MS,
       RemoteOp.invoke host cmd2])

/-- Python exceptions escaping an embedded function. -/
inductive PyErr where
  | typeError (msg : String)
  | exc (msg : String)
  deriving DecidableEq, Repr

/-- Response of `POST /api/hooks/event`: HTTP status, the error envelope's
code when `error_response` built it, and the `accepted` body field when
present (src/dashboard/api/__init__.py:15-46). -/
structure HookResponse where
  status : Nat
  errorCode : Option String
  accepted : Option Bool
  deriving DecidableEq, Repr

/-- `receive_bridge_event` (src/dashboard/api/sessions.py:542-562). `body`
is the request body after `request.json()` (`none` = the body failed JSON
parsing). `ingestOutcome` is the outcome of
`message_svc.ingest_bridge_event(body)`; an `Except.error` models an
exception, which the handler swallows. -/
def receive_bridge_event {α : Type} (body : Option α)
    (ingestOutcome : α → Except PyErr Unit) : HookResponse :=
  match body with
  | none => { status := 400, errorCode := some "INVALID_JSON", accepted := none }
  | some b =>
    -- try: await ingest_bridge_event(body) except Exception: pass
    let _discarded := ingestOutcome b
    { status := 202, errorCode := none, accepted := some true }

/-- A row of the `sessions` table (src/dashboard/db.py:26-40). The columns
`discord_archived`, `slack_channel_id` and `slack_archived` are never read
or written by the code the claims cover and are omitted. -/
structure SessionRow where
  name : String
  host : String
  status : String
  agent_type : Option String := none
  working_dir : Option String := none
  created_at : String
  updated_at : String
  closed_at : Option String := none
  discord_thread_id : Option String := none
  slack_thread_ts : Option String := none
  deriving DecidableEq, Repr

/-- `SELECT * FROM sessions WHERE name = ?` on a table whose primary key is
`name`: the first (only) row with that name. -/
def dbGet (db : List SessionRow) (name : String) : Option SessionRow :=
  db.find? (fun r => r.name == name)

/-- `UPDATE sessions SET ... WHERE name = ?`. -/
def dbUpdate (db : List SessionRow) (name : String)
    (f : SessionRow → SessionRow) : List SessionRow :=
  db.map (fun r => if r.name = name then f r else r)

/-- Parsed JSON body of `POST /api/sessions`; `none` = key absent. -/
structure CreateBody where
  name : Option String := none
  host : Option String := none
  agent_type : Option String := none
  deriving DecidableEq, Repr

/-- Response of `POST /api/sessions`: status, error-envelope code, and the
created session's `status` and `name` fields when 201. -/
structure CreateResponse where
  status : Nat
  errorCode : Option String
  sessionStatus : Option String
  sessionName : Option String
  deriving DecidableEq, Repr

/-- Python call semantics for `ssh.create_tmux_session`
(src/dashboard/ssh.py:182-198): the function has exactly the two positional
parameters `(host, name)` and no defaults, so a call supplying any other
number of positional arguments raises `TypeError` before the body runs.
When the arity matches, the body runs `tmux new-session -d -s <quoted name>`
and returns whether the exit code (`rcNew`) is zero. -/
def call_ssh_create_tmux_session (rcNew : Int) (args : List (Option String)) :
    Except PyErr Bool :=
  if args.length = 2 then Except.ok (rcNew == 0)
  else Except.error (PyErr.typeError
    "create_tmux_session() takes 2 positional arguments")

/-- `SessionService.create_session`
(src/dashboard/services/session_service.py:100-113): forwards to
`ssh.create_tmux_session(host, name, working_dir)` — three positional
arguments. -/
def SessionService.create_session (rcNew : Int) (name host : String)
    (working_dir : Option String := none) : Except PyErr Bool :=
  call_ssh_create_tmux_session rcNew [some host, some name, working_dir]

/-- `body.get("agent_type", "")` allow-list (src/dashboard/api/sessions.py:211). -/
def VALID_AGENT_TYPES : List String := ["claude", "codex", "gemini", "unknown"]

/-- `create_session` handler (src/dashboard/api/sessions.py:147-227).
`hosts` is `session_svc.ssh_hosts`; `db` the sessions table; `now` models
`db.now_iso()`; `rcNew` the tmux exit code the SSH layer would observe;
`body` the parsed JSON body (`none` = parse failure). Returns the response
and the updated table, or the uncaught exception (which aiohttp turns into
a 500 Internal Server Error). -/
def create_session_handler (hosts : List String) (db : List SessionRow)
    (now : String) (rcNew : Int) (body : Option CreateBody) :
    Except PyErr (CreateResponse × List SessionRow) :=
  match body with
  | none => Except.ok
      ({ status := 400, errorCode := some "INVALID_JSON",
         sessionStatus := none, sessionName := none }, db)
  | some b =>
    let name := pyStrip (b.name.getD "")
    let host0 := pyStrip (b.host.getD "")
    if name = "" then
      Except.ok ({ status := 400, errorCode := some "MISSING_NAME",
                   sessionStatus := none, sessionName := none }, db)
    else if !is_valid_session_name name then
      Except.ok ({ status := 400, errorCode := some "INVALID_NAME",
                   sessionStatus := none, sessionName := none }, db)
    else
      -- default_host = ssh_hosts[0] if ssh_hosts else ""
      let host := if host0 = "" then hosts.headD "" else host0
      if host ∉ hosts then
        Except.ok ({ status := 400, errorCode := some "INVALID_HOST",
                     sessionStatus := none, sessionName := none }, db)
      else if (dbGet db name).isSome then
        Except.ok ({ status := 409, errorCode := some "ALREADY_EXISTS",
                     sessionStatus := none, sessionName := none }, db)
      else
        match SessionService.create_session rcNew name host with
        | Except.error e => Except.error e
        | Except.ok false =>
          Except.ok ({ status := 500, errorCode := some "TMUX_CREATE_FAILED",
                       sessionStatus := none, sessionName := none }, db)
        | Except.ok true =>
          let db1 := db ++ [{ name := name, host := host, status := "active",
                              created_at := now, updated_at := now : SessionRow }]
          let at0 := pyStrip (b.agent_type.getD "")
          let db2 := if at0 ≠ "" ∧ at0 ∈ VALID_AGENT_TYPES then
              dbUpdate db1 name (fun r => { r with agent_type := some at0 })
            else db1
          let row := dbGet db2 name
          Except.ok ({ status := 201, errorCode := none,
                       sessionStatus := row.map (fun r => r.status),
                       sessionName := row.map (fun r => r.name) }, db2)

/-- `SessionService.find_host`
(src/dashboard/services/session_service.py:43-73): the first configured
host for which `ssh.has_session` answers positively (`hasSession host
name` is the oracle); both the single-host loop and the parallel
`asyncio.gather` path return the first positive host in list order. -/
def find_host (hasSession : String → String → Bool) (hosts : List String)
    (name : String) : Option String :=
  hosts.find? (fun h => hasSession h name)

/-- Response of `POST /api/sessions/{name}/send`. -/
structure SendResponse where
  status : Nat
  errorCode : Option String
  sent : Option Bool
  host : Option String
  deriving DecidableEq, Repr

/-- `send_message` handler (src/dashboard/api/sessions.py:390-427). `body`
is the parsed JSON (`none` = parse failure) whose value is the `message`
field (`none` = key absent). `sendOk host name message` is the outcome of
`ssh.send_to_tmux`. Note: the path parameter `name` is never validated
against the session-name grammar here. -/
def send_message_handler (hasSession : String → String → Bool)
    (sendOk : String → String → String → Bool) (hosts : List String)
    (name : String) (body : Option (Option String)) : SendResponse :=
  match body with
  | none => { status := 400, errorCode := some "INVALID_JSON",
              sent := none, host := none }
  | some msgField =>
    let message := pyStrip (msgField.getD "")
    if message = "" then
      { status := 400, errorCode := some "MISSING_MESSAGE",
        sent := none, host := none }
    else
      match find_host hasSession hosts name with
      | none => { status := 404, errorCode := some "SESSION_NOT_FOUND",
                  sent := none, host := none }
      | some host =>
        if sendOk host name message then
          { status := 200, errorCode := none, sent := some true,
            host := some host }
        else
          { status := 500, errorCode := some "SEND_FAILED",
            sent := none, host := none }

/-- Python `path.startswith(p)`. -/
def pyStartsWith (s p : String) : Bool := p.data.isPrefixOf s.data

/-- Substring occurrence over character lists: the needle is a prefix of
some suffix of the haystack. -/
def listHasInfix (needle haystack : List Char) : Bool :=
  match haystack with
  | [] => needle.isEmpty
  | _ :: t => needle.isPrefixOf haystack || listHasInfix needle t

/-- Python `needle in haystack` on strings. -/
def strContainsSub (haystack needle : String) : Bool :=
  listHasInfix needle.data haystack.data

/-- `_NO_AUTH_PREFIXES` (src/dashboard/auth.py:27-34). -/
def NO_AUTH_PREFIXES : List String :=
  ["/healthz", "/api/hooks/", "/api/install.sh", "/static/", "/login", "/logout"]

/-- `COOKIE_MAX_AGE = 86400` seconds (src/dashboard/auth.py:24). -/
def COOKIE_MAX_AGE : Int := 86400

/-- Python `int(s)`: optional sign and decimal digits after stripping
whitespace; anything else raises ValueError (`none`). Underscore digit
grouping, which Python also accepts, never occurs in cookie timestamps and
is not modelled. -/
def pyParseInt (s : String) : Option Int :=
  let t := pyStrip s
  let core := match t.data with
    | '-' :: rest => rest
    | '+' :: rest => rest
    | rest => rest
  if core.isEmpty || !core.all Char.isDigit then none
  else
    let n : Nat := core.foldl (fun acc c => acc * 10 + (c.toNat - '0'.toNat)) 0
    some (if t.data.head? = some '-' then -(n : Int) else (n : Int))

/-- Python `s.split(".", 1)` when a dot is present: the text before the
first dot and the text after it. -/
def splitFirstDot (s : String) : String × String :=
  (⟨s.data.takeWhile (fun c => c != '.')⟩,
   ⟨(s.data.dropWhile (fun c => c != '.')).tail⟩)

/-- `validate_session_cookie` (src/dashboard/auth.py:49-71). `hmacHex key
msg` abstracts `hmac.new(key.encode(), msg.encode(), sha256).hexdigest()`;
`now` abstracts `time.time()` (cookie timestamps are whole seconds). With
`maxsplit=1` and a dot present, `split` always yields two parts, so the
`len(parts) != 2` guard never fires and is absorbed here. -/
def validate_session_cookie (hmacHex : String → String → String) (now : Int)
    (cookie_value token : String) : Bool :=
  if cookie_value = "" || !(cookie_value.data.contains '.') then false
  else
    let parts := splitFirstDot cookie_value
    match pyParseInt parts.1 with
    | none => false
    | some ts =>
      if now - ts > COOKIE_MAX_AGE then false
      else parts.2 == hmacHex token parts.1

/-- The request data the auth middleware inspects: path, Accept header,
`aily_session` cookie value (`""` = absent, as
`request.cookies.get(COOKIE_NAME, "")`), Authorization header and
`?token=` query parameter (`""` = absent). -/
structure AuthReq where
  path : String
  accept : String
  cookie : String
  authHeader : String
  queryToken : String
  deriving DecidableEq, Repr

/-- What the middleware does with a request: invoke the wrapped handler,
answer a JSON error envelope itself, or raise `HTTPFound` — a 302 redirect
to the given location. -/
inductive AuthOutcome where
  | next
  | errJson (status : Nat) (code : String)
  | redirect (location : String)
  deriving DecidableEq, Repr

/-- `_is_browser_request` (src/dashboard/auth.py:74-80). -/
def is_browser_request (req : AuthReq) : Bool :=
  if pyStartsWith req.path "/api/" || req.path == "/ws" then false
  else strContainsSub req.accept "text/html"

/-- `auth_middleware` (src/dashboard/auth.py:83-148). `dashboard_token` is
`config.dashboard_token` (`""` = unset = dev mode). Bearer and query-token
comparisons use `hmac.compare_digest`, i.e. equality. -/
def auth_middleware (hmacHex : String → String → String) (now : Int)
    (dashboard_token : String) (req : AuthReq) : AuthOutcome :=
  if dashboard_token = "" then AuthOutcome.next
  else if NO_AUTH_PREFIXES.any (fun p => pyStartsWith req.path p) then
    AuthOutcome.next
  else if req.path = "/ws" then
    (if req.queryToken ≠ "" ∧ req.queryToken = dashboard_token then
       AuthOutcome.next
     else if validate_session_cookie hmacHex now req.cookie dashboard_token then
       AuthOutcome.next
     else AuthOutcome.errJson 401 "UNAUTHORIZED")
  else if validate_session_cookie hmacHex now req.cookie dashboard_token then
    AuthOutcome.next
  else if pyStartsWith req.authHeader "Bearer " ∧
      req.authHeader.drop 7 = dashboard_token then
    AuthOutcome.next
  else if is_browser_request req then
    AuthOutcome.redirect ("/login?next=" ++ req.path)
  else AuthOutcome.errJson 401 "UNAUTHORIZED"

/-- Python truthiness of a str-or-None value: `None` and `""` are falsy. -/
def truthyStr (v : Option String) : Bool :=
  match v with
  | none => false
  | some s => s != ""

/-- Python `a or b` on str-or-None values. -/
def pyOrOpt (a b : Option String) : Option String :=
  if truthyStr a then a else b

/-- A row of the `messages` table (src/dashboard/db.py:45-56); the unique
index sits on `dedup_hash` (db.py:58). -/
structure MessageRow where
  session_name : String
  role : String
  content : String
  source : String
  source_id : Option String
  source_author : String
  timestamp : String
  ingested_at : String
  dedup_hash : String
  deriving DecidableEq, Repr

/-- A row of the append-only `events` audit table (src/dashboard/db.py:72-78),
which carries no unique constraint. -/
structure EventLogRow where
  event_type : String
  session_name : String
  payload : String
  created_at : String
  deriving DecidableEq, Repr

/-- The store state the ingestion path touches. -/
structure Db where
  sessions : List SessionRow
  messages : List MessageRow
  eventsLog : List EventLogRow
  deriving DecidableEq, Repr

/-- `INSERT OR IGNORE INTO messages ...` (src/dashboard/db.py:225-247)
against the unique index on `dedup_hash`: the row is appended unless a row
with the same fingerprint already exists; the returned flag is
`cursor.rowcount > 0`. -/
def messages_insert_or_ignore (msgs : List MessageRow) (row : MessageRow) :
    List MessageRow × Bool :=
  if ∃ r ∈ msgs, r.dedup_hash = row.dedup_hash then (msgs, false)
  else (msgs ++ [row], true)

/-- Parsed JSON body of a bridge webhook event (`none` = key absent). -/
structure BridgeEvent where
  type : Option String := none
  session_name : Option String := none
  platform : Option String := none
  content : Option String := none
  role : Option String := none
  source_id : Option String := none
  external_id : Option String := none
  source_author : Option String := none
  timestamp : Option String := none
  deriving DecidableEq, Repr

/-- `compute_dedup_hash` (src/dashboard/services/message_service.py:24-46).
`sha256hex` abstracts `hashlib.sha256(key.encode()).hexdigest()`; every
theorem below holds for an arbitrary hash function, so nothing rests on
SHA-256 internals. -/
def compute_dedup_hash (sha256hex : String → String)
    (session_name source : String) (source_id : Option String)
    (content : String) : String :=
  if truthyStr source_id then
    sha256hex (source ++ ":" ++ source_id.getD "")
  else
    sha256hex (session_name ++ ":" ++ source ++ ":" ++ content.take 200)

/-- Modelled from the spec's wording (§3): the fingerprint is
`sha256("{source}:{source_id}")` when a platform-stable identifier exists,
otherwise `sha256("{session}:{source}:{content[:200]}")`. Stated
separately so the code's `compute_dedup_hash` can be compared against it. -/
def dedup_fingerprint_spec (sha256hex : String → String)
    (session source : String) (source_id : Option String)
    (content : String) : String :=
  match source_id with
  | some sid => if sid ≠ "" then sha256hex (source ++ ":" ++ sid)
      else sha256hex (session ++ ":" ++ source ++ ":" ++ content.take 200)
  | none => sha256hex (session ++ ":" ++ source ++ ":" ++ content.take 200)

/-- Source coercion (message_service.py:111-112): platforms outside
discord/slack/tmux are stored as source `hook`. -/
def coerce_source (platform : Option String) : String :=
  let p := platform.getD "hook"
  if p = "discord" ∨ p = "slack" ∨ p = "tmux" then p else "hook"

/-- Role coercion (message_service.py:113-115): roles outside
user/assistant/system are stored as `user`. -/
def coerce_role (role : Option String) : String :=
  let r := role.getD "user"
  if r = "user" ∨ r = "assistant" ∨ r = "system" then r else "user"

/-- Timestamp normalisation (message_service.py:121-129): `parseIso`
models `datetime.fromisoformat(·).isoformat()` (`none` = ValueError);
a falsy or unparsable timestamp falls back to `db.now_iso()`. -/
def eventTimestamp (parseIso : String → Option String) (now : String)
    (ts : Option String) : String :=
  match ts with
  | some t => if t ≠ "" then (parseIso t).getD now else now
  | none => now

/-- A `usage_snapshots` row, restricted to the fields reset/limit
detection reads (src/dashboard/db.py:88-107). Header values that are not
decimal integers (which `_parse_headers` would keep as strings) never
carry `remaining` counts and are out of the model. -/
structure UsageSnapshot where
  poll_status_code : Option Int := none
  requests_remaining : Option Int := none
  input_tokens_remaining : Option Int := none
  output_tokens_remaining : Option Int := none
  tokens_remaining : Option Int := none
  deriving DecidableEq, Repr

/-- `LIMIT_TYPES` (src/dashboard/services/usage_service.py:60). -/
def LIMIT_TYPES : List String := ["requests", "input_tokens", "output_tokens", "tokens"]

/-- `snapshot.get(f"{limit_type}_remaining")`. -/
def remainingOf (s : UsageSnapshot) (lt : String) : Option Int :=
  if lt = "requests" then s.requests_remaining
  else if lt = "input_tokens" then s.input_tokens_remaining
  else if lt = "output_tokens" then s.output_tokens_remaining
  else if lt = "tokens" then s.tokens_remaining
  else none

/-- `UsageService.detect_reset` (usage_service.py:225-240): the limit
types whose `remaining` strictly increased, both values present; an absent
previous snapshot yields none. The source's loop-and-append builds exactly
this filtered list in `LIMIT_TYPES` order. -/
def detect_reset (current : UsageSnapshot) (previous : Option UsageSnapshot) :
    List String :=
  match previous with
  | none => []
  | some prev =>
    LIMIT_TYPES.filter (fun lt =>
      match remainingOf current lt, remainingOf prev lt with
      | some c, some p => p < c
      | _, _ => false)

/-- `UsageService.detect_limit_reached` (usage_service.py:242-250). -/
def detect_limit_reached (snapshot : UsageSnapshot) : List String :=
  LIMIT_TYPES.filter (fun lt =>
    match remainingOf snapshot lt with
    | some r => r ≤ 0
    | none => false)

/-- `UsageService.get_previous_snapshot` (usage_service.py:215-221):
`history` holds the stored snapshots of one provider ordered most recent
first (the query's ORDER BY polled_at DESC); the first row whose
`poll_status_code` is 200 or 429 is returned. -/
def get_previous_snapshot (history : List UsageSnapshot) : Option UsageSnapshot :=
  history.find? (fun s =>
    decide (s.poll_status_code = some 200 ∨ s.poll_status_code = some 429))

/-- Events published on the in-process `EventBus`
(src/dashboard/services/event_bus.py:39-135); each constructor carries the
payload of the corresponding `Event` factory. `messageNew` carries the
dict built at message_service.py:157-169. -/
inductive BusEvent where
  | sessionCreated (row : SessionRow)
  | sessionUpdated (row : SessionRow)
  | sessionClosed (row : SessionRow)
  | messageNew (session_name role content source : String)
      (source_id : Option String) (source_author timestamp : String)
  | typingStart (session_name : String)
  | typingStop (session_name : String)
  | usageUpdated (provider : String) (snap : UsageSnapshot)
  | usageLimitReached (provider limit_type : String) (snap : UsageSnapshot)
  | usageReset (provider limit_type : String) (snap : UsageSnapshot)
  deriving DecidableEq, Repr

/-- `MessageService.ingest_bridge_event`
(src/dashboard/services/message_service.py:55-180). `sha256hex` abstracts
the fingerprint hash, `parseIso` the ISO-8601 parse, `now` the value
`db.now_iso()` returns during this call. Returns the updated store and the
events published on the bus. The audit row's `payload` is `str(event_data)`,
rendered here with the derived `Repr`. -/
def ingest_bridge_event (sha256hex : String → String)
    (parseIso : String → Option String) (now : String)
    (ev : BridgeEvent) (db : Db) : Db × List BusEvent :=
  let event_type := ev.type.getD ""
  if event_type = "typing.start" ∨ event_type = "typing.stop" then
    let session_name := pyStrip (ev.session_name.getD "")
    if session_name ≠ "" then
      if event_type = "typing.start" then (db, [BusEvent.typingStart session_name])
      else (db, [BusEvent.typingStop session_name])
    else (db, [])
  else
    let session_name := pyStrip (ev.session_name.getD "")
    if session_name = "" then (db, [])
    else if (dbGet db.sessions session_name).isNone then (db, [])
    else
      let content := pyStrip (ev.content.getD "")
      if content = "" then (db, [])
      else
        let source := coerce_source ev.platform
        let role := coerce_role ev.role
        let source_id := pyOrOpt ev.source_id ev.external_id
        let source_author := ev.source_author.getD ""
        let timestamp := eventTimestamp parseIso now ev.timestamp
        let dedup_hash := compute_dedup_hash sha256hex session_name source source_id content
        let row : MessageRow :=
          { session_name := session_name, role := role, content := content,
            source := source, source_id := source_id,
            source_author := source_author, timestamp := timestamp,
            ingested_at := now, dedup_hash := dedup_hash }
        let inserted := messages_insert_or_ignore db.messages row
        let published :=
          if inserted.2 then
            [BusEvent.messageNew session_name role content source source_id
              source_author timestamp]
          else []
        let logRow : EventLogRow :=
          { event_type := ev.type.getD "bridge.event",
            session_name := session_name, payload := reprStr ev,
            created_at := now }
        ({ db with messages := inserted.1,
                   eventsLog := db.eventsLog ++ [logRow] }, published)

/-- One provider iteration of the usage poller's `_poll_once`
(src/dashboard/workers/usage_poller.py:55-102): `previous` is fetched
before the new snapshot is saved; a completely failed poll
(`poll_status_code == 0`) skips all event logic; otherwise *usage.updated*
is published, then *usage.limit_reached* per exhausted limit type, then
*usage.reset* per reset limit type. -/
def usage_poll_provider_events (provider : String)
    (history : List UsageSnapshot) (snapshot : UsageSnapshot) : List BusEvent :=
  let previous := get_previous_snapshot history
  if snapshot.poll_status_code = some 0 then []
  else
    [BusEvent.usageUpdated provider snapshot]
    ++ (detect_limit_reached snapshot).map
        (fun lt => BusEvent.usageLimitReached provider lt snapshot)
    ++ (detect_reset snapshot previous).map
        (fun lt => BusEvent.usageReset provider lt snapshot)

/-- `json.dumps({"host": h})` as written into the events audit table by the
session poller. -/
def hostJson (h : String) : String :=
  "\x7b\"host\": \"" ++ h ++ "\"\x7d"

/-- Python dict membership/indexing for the live `{name: host}` mapping. -/
def lookupLive (live : List (String × String)) (name : String) : Option String :=
  (live.find? (fun p => p.1 == name)).map (fun p => p.2)

/-- Building the live dict (session_poller.py:64-68): `live[name] = host`,
later writes overwriting earlier ones in place (Python dict semantics). -/
def upsert (m : List (String × String)) (k v : String) : List (String × String) :=
  if ∃ p ∈ m, p.1 = k then m.map (fun p => if p.1 = k then (k, v) else p)
  else m ++ [(k, v)]

/-- Flatten `{host: [names]}` (iterated in order) to the `{name: host}`
dict (session_poller.py:64-68). -/
def flatten_live (host_sessions : List (String × List String)) :
    List (String × String) :=
  host_sessions.foldl (fun m hv => hv.2.foldl (fun m n => upsert m n hv.1) m) []

/-- State threaded through one reconciler tick: the sessions table, the
bus events published so far, and the audit rows appended so far. -/
structure PollSt where
  db : List SessionRow
  bus : List BusEvent
  log : List EventLogRow
  deriving DecidableEq, Repr

/-- The new-session branch of `_poll_once`
(src/dashboard/workers/session_poller.py:81-136) for one `(name, host)`
pair of the live mapping. `dbNames` is the name set of the non-closed
snapshot taken at the start of the tick. `syncIds name` models
`platform_svc.sync_thread_ids` (exceptions there are caught and logged,
leaving the row as if no ids were found); `cwdOf host name` models
`session_svc.get_session_cwd` the same way. The `INSERT OR IGNORE`
consults the full table (name is the primary key), so a closed session
that reappears is not re-inserted and keeps its status. `poll_new_apply`
is the table mutation (insert-or-ignore plus thread-id and cwd updates);
`poll_new_step` wraps it with the snapshot-membership guard and the
*session.created* event and audit row. -/
def poll_new_apply (syncIds : String → Option String × Option String)
    (cwdOf : String → String → Option String) (now : String)
    (db : List SessionRow) (nh : String × String) : List SessionRow :=
  let db1 := if (dbGet db nh.1).isSome then db
    else db ++ [{ name := nh.1, host := nh.2, status := "active",
                  created_at := now, updated_at := now : SessionRow }]
  let ids := syncIds nh.1
  let db2 := match ids.1 with
    | some t => dbUpdate db1 nh.1 (fun r => { r with discord_thread_id := some t })
    | none => db1
  let db3 := match ids.2 with
    | some t => dbUpdate db2 nh.1 (fun r => { r with slack_thread_ts := some t })
    | none => db2
  match cwdOf nh.2 nh.1 with
  | some c => dbUpdate db3 nh.1 (fun r => { r with working_dir := some c })
  | none => db3

def poll_new_step (syncIds : String → Option String × Option String)
    (cwdOf : String → String → Option String) (now : String)
    (dbNames : List String) (st : PollSt) (nh : String × String) : PollSt :=
  if nh.1 ∈ dbNames then st
  else
    let db4 := poll_new_apply syncIds cwdOf now st.db nh
    match dbGet db4 nh.1 with
    | some row =>
      { db := db4, bus := st.bus ++ [BusEvent.sessionCreated row],
        log := st.log ++ [{ event_type := "session.created",
                            session_name := nh.1, payload := hostJson nh.2,
                            created_at := now }] }
    | none => { db := db4, bus := st.bus, log := st.log }

/-- The existing-session branch of `_poll_once`
(src/dashboard/workers/session_poller.py:138-205) for one row of the
non-closed snapshot. Alive: possibly reactivate, possibly migrate host,
always bump `updated_at`, publishing *session.updated* when status or host
changed. Gone: transition to closed with `closed_at`, publish
*session.closed*, append an audit row. `reactivateRow` is the UPDATE of
the alive branch (status back to active when needed, host migration,
`updated_at` bump); `closeRow` the UPDATE of the gone branch. -/
def reactivateRow (session : SessionRow) (host now : String)
    (r : SessionRow) : SessionRow :=
  let r1 := if session.status = "closed" ∨ session.status = "idle" ∨
      session.status = "orphan" ∨ session.status = "unreachable" then
      { r with status := "active" } else r
  let r2 := if session.host ≠ host then { r1 with host := host } else r1
  { r2 with updated_at := now }

def closeRow (now : String) (r : SessionRow) : SessionRow :=
  { r with status := "closed", closed_at := some now, updated_at := now }

def poll_existing_step (live : List (String × String)) (now : String)
    (st : PollSt) (session : SessionRow) : PollSt :=
  match lookupLive live session.name with
  | some host =>
    let db1 := dbUpdate st.db session.name (reactivateRow session host now)
    if session.status ≠ "active" ∨ session.host ≠ host then
      match dbGet db1 session.name with
      | some row => { st with db := db1, bus := st.bus ++ [BusEvent.sessionUpdated row] }
      | none => { st with db := db1 }
    else { st with db := db1 }
  | none =>
    if session.status ≠ "closed" then
      let db1 := dbUpdate st.db session.name (closeRow now)
      match dbGet db1 session.name with
      | some row =>
        { db := db1, bus := st.bus ++ [BusEvent.sessionClosed row],
          log := st.log ++ [{ event_type := "session.closed",
                              session_name := session.name,
                              payload := hostJson session.host,
                              created_at := now }] }
      | none => { st with db := db1 }
    else st

/-- One reconciler tick, `_poll_once`
(src/dashboard/workers/session_poller.py:52-205): snapshot the non-closed
rows, walk the live mapping inserting discovered sessions, then walk the
snapshot updating or closing stored sessions. `now` is the single
`db.now_iso()` taken before the loops. -/
def poll_once (syncIds : String → Option String × Option String)
    (cwdOf : String → String → Option String) (now : String)
    (live : List (String × String)) (db0 : List SessionRow) : PollSt :=
  let snapshot := db0.filter (fun r => r.status != "closed")
  let dbNames := snapshot.map (fun r => r.name)
  let st1 := live.foldl (poll_new_step syncIds cwdOf now dbNames)
    { db := db0, bus := [], log := [] }
  snapshot.foldl (poll_existing_step live now) st1

/-- An event payload as the websocket send loop sees it: the key/value
pairs of `event.payload` whose values are strings (the only values the
session filter inspects — `name` and `session_name` are strings whenever
present). -/
abbrev WsPayload := List (String × String)

/-- `payload.get(k)`. -/
def payloadGet (p : WsPayload) (k : String) : Option String :=
  (p.find? (fun kv => kv.1 == k)).map (fun kv => kv.2)

/-- The filter decision of the websocket send loop
(src/dashboard/api/ws.py:101-107): with a non-empty subscription set, the
event is skipped when `payload.get("name") or payload.get("session_name")`
is truthy and not a subscribed name; otherwise it is sent. -/
def ws_filter_allows (subscribed : List String) (payload : WsPayload) : Bool :=
  if subscribed.isEmpty then true
  else
    let session_name := pyOrOpt (payloadGet payload "name")
      (payloadGet payload "session_name")
    if truthyStr session_name ∧ session_name.getD "" ∉ subscribed then false
    else true

/-- `subscribe` frame handling (src/dashboard/api/ws.py:127-132): the
filter is cleared, then refilled from the frame's `sessions` value when it
is a list (`none` models a non-list value; an absent key defaults to the
empty list, i.e. `some []`). The previous filter never survives, so the
most recent frame alone determines the filter. -/
def apply_subscribe (sessionsField : Option (List String)) : List String :=
  match sessionsField with
  | some l => l
  | none => []

/-- The send loop's effect on a drained queue segment: exactly the events
the filter allows, in order. -/
def ws_send_batch (subscribed : List String) (queue : List WsPayload) :
    List WsPayload :=
  queue.filter (ws_filter_allows subscribed)

end Aily

namespace Aily

/-- If a path starts with `a`, a candidate `b` that is neither a prefix of
`a` nor an extension of it cannot also be a prefix of the path. -/
theorem pyStartsWith_false_of_conflict (p a b : String)
    (h : pyStartsWith p a = true)
    (hab : a.data.isPrefixOf b.data = false)
    (hba : b.data.isPrefixOf a.data = false) :
    pyStartsWith p b = false := by
  by_contra hb
  rw [Bool.not_eq_false] at hb
  unfold pyStartsWith at h hb
  rw [List.isPrefixOf_iff_prefix] at h hb
  rcases List.prefix_or_prefix_of_prefix h hb with hc | hc
  · exact absurd (List.isPrefixOf_iff_prefix.mpr hc) (by simp [hab])
  · exact absurd (List.isPrefixOf_iff_prefix.mpr hc) (by simp [hba])

/-- C6: sending text to a session issues exactly the two-stage tmux
protocol: a `send-keys` invocation carrying the shell-quoted session name
and shell-quoted payload; then, only if that first invocation exited zero,
a 300 ms pause followed by a separate `send-keys ... Enter` invocation.
The call succeeds iff both invocations exit zero, and the Enter invocation
is never issued when the first fails. -/
theorem send_two_stage_contract (rc : Nat → Int) (host session message : String) :
    (send_to_tmux rc host session message).1 = ((rc 0 == 0) && (rc 1 == 0)) ∧
    (send_to_tmux rc host session message).2 =
      (if rc 0 = 0 then
        [RemoteOp.invoke host
           ("tmux send-keys -t " ++ shlex_quote session ++ " " ++ shlex_quote message),
         RemoteOp.sleepMs 300,
         RemoteOp.invoke host
           ("tmux send-keys -t " ++ shlex_quote session ++ " Enter")]
       else
        [RemoteOp.invoke host
           ("tmux send-keys -t " ++ shlex_quote session ++ " " ++ shlex_quote message)]) := by
  by_cases h : rc 0 = 0 <;>
    simp [send_to_tmux, h, SEND_KEYS_DELAY_MS]

/-- C1 (code bug): a well-formed create request — valid name, configured
host, no session of that name stored — does not produce the documented
201/"active" response: `SessionService.create_session` calls
`ssh.create_tmux_session(host, name, working_dir)` with three positional
arguments while the function accepts only `(host, name)`, so the handler
raises `TypeError` (surfaced by aiohttp as a 500) before any tmux session
is created. Evaluated at `POST /api/sessions {"name":"demo",
"host":"testhost"}` against an empty store with the tmux layer ready to
succeed (`rcNew = 0`). -/
theorem create_session_valid_request_raises_type_error :
    create_session_handler ["testhost"] [] "2026-02-13T10:30:00+00:00" 0
      (some { name := some "demo", host := some "testhost" }) =
    Except.error (PyErr.typeError
      "create_tmux_session() takes 2 positional arguments") := by
  rfl

/-- C2 counterexample: a request whose body is not valid JSON is answered
400 INVALID_JSON — not 202 — so the response is not independent of the
request body's content. -/
theorem hooks_invalid_json_not_202 :
    (receive_bridge_event (α := Unit) none (fun _ => Except.ok ())).status = 400 ∧
    receive_bridge_event (α := Unit) none (fun _ => Except.ok ()) ≠
      { status := 202, errorCode := none, accepted := some true } := by
  decide

/-- C2 amended: every request whose body parses as JSON is answered
`202 {"accepted": true}` whatever the parsed content and whatever the
downstream ingest outcome (success or exception); a body that fails JSON
parsing is answered 400 INVALID_JSON instead. -/
theorem hooks_parsed_body_always_202 {α : Type} (b : α)
    (outcome : α → Except PyErr Unit) :
    receive_bridge_event (some b) outcome =
      { status := 202, errorCode := none, accepted := some true } ∧
    receive_bridge_event (α := α) none outcome =
      { status := 400, errorCode := some "INVALID_JSON", accepted := none } :=
  ⟨rfl, rfl⟩

/-- C3 counterexample: the session name `"bad name"` contains a character
outside `[A-Za-z0-9_-]`, yet `POST /api/sessions/bad name/send` (no host
reporting such a tmux session) is answered 404 SESSION_NOT_FOUND, not 400:
the send endpoint never validates its session-name parameter. -/
theorem send_invalid_name_404_not_400 :
    is_valid_session_name "bad name" = false ∧
    send_message_handler (fun _ _ => false) (fun _ _ _ => false) ["testhost"]
      "bad name" (some (some "hello")) =
      { status := 404, errorCode := some "SESSION_NOT_FOUND",
        sent := none, host := none } ∧
    (send_message_handler (fun _ _ => false) (fun _ _ _ => false) ["testhost"]
      "bad name" (some (some "hello"))).status ≠ 400 := by
  decide

/-- C3 amended: only session create validates the session-name grammar —
a supplied name that strips to a non-empty string failing the grammar
(character outside `[A-Za-z0-9_-]` or longer than 64) yields
400 INVALID_NAME there; the send endpoint performs no such validation:
a name live on no host yields 404 SESSION_NOT_FOUND, whatever the name. -/
theorem name_validation_create_only (hosts : List String) (db : List SessionRow)
    (now : String) (rcNew : Int) (b : CreateBody)
    (hne : pyStrip (b.name.getD "") ≠ "")
    (hinv : is_valid_session_name (pyStrip (b.name.getD "")) = false)
    (hasSession : String → String → Bool)
    (sendOk : String → String → String → Bool) (name msg : String)
    (habsent : ∀ h ∈ hosts, hasSession h name = false)
    (hmsg : pyStrip msg ≠ "") :
    create_session_handler hosts db now rcNew (some b) =
      Except.ok ({ status := 400, errorCode := some "INVALID_NAME",
                   sessionStatus := none, sessionName := none }, db) ∧
    send_message_handler hasSession sendOk hosts name (some (some msg)) =
      { status := 404, errorCode := some "SESSION_NOT_FOUND",
        sent := none, host := none } := by
  constructor
  · simp [create_session_handler, hne, hinv]
  · have hfind : find_host hasSession hosts name = none := by
      simp [find_host, List.find?_eq_none]
      exact fun h hh => by simp [habsent h hh]
    simp [send_message_handler, hmsg, hfind]

/-- Witness for `name_validation_create_only` at concrete inputs. -/
theorem name_validation_create_only_witness :
    create_session_handler ["testhost"] [] "2026-02-13T10:30:00+00:00" 0
      (some { name := some "bad name" }) =
      Except.ok ({ status := 400, errorCode := some "INVALID_NAME",
                   sessionStatus := none, sessionName := none }, []) ∧
    send_message_handler (fun _ _ => false) (fun _ _ _ => false) ["testhost"]
      "bad name" (some (some "hi")) =
      { status := 404, errorCode := some "SESSION_NOT_FOUND",
        sent := none, host := none } :=
  name_validation_create_only ["testhost"] [] "2026-02-13T10:30:00+00:00" 0
    { name := some "bad name" } (by decide) (by decide)
    (fun _ _ => false) (fun _ _ _ => false) "bad name" "hi"
    (fun _ _ => rfl) (by decide)

/-- C7 counterexample: with a token configured, the credential-less request
`GET /api/install.sh.bak` — a path under `/api/` that is neither
`/api/hooks/*` nor `/api/install.sh` itself — is passed through to the
handler (the bypass check is a *prefix* match on `/api/install.sh`), so it
does not receive the 401 the claim promises for it. -/
theorem auth_install_prefix_bypass :
    auth_middleware (fun _ _ => "") 0 "secret"
      { path := "/api/install.sh.bak", accept := "", cookie := "",
        authHeader := "", queryToken := "" } = AuthOutcome.next ∧
    pyStartsWith "/api/install.sh.bak" "/api/" = true ∧
    pyStartsWith "/api/install.sh.bak" "/api/hooks/" = false ∧
    "/api/install.sh.bak" ≠ "/api/install.sh" := by
  decide

/-- C7 amended: when a token is configured, a request carrying no valid
credential to a path under `/api/` that does not begin with `/api/hooks/`
or `/api/install.sh` (the bypass list is prefix-matched) is answered
401 with the JSON error envelope code UNAUTHORIZED; and a browser
navigation `GET /sessions` (Accept naming HTML) with no cookie receives a
302 redirect to `/login?next=/sessions`. -/
theorem api_no_credentials_401 (hmacHex : String → String → String)
    (now : Int) (token : String) (req : AuthReq)
    (htok : token ≠ "")
    (hapi : pyStartsWith req.path "/api/" = true)
    (hhooks : pyStartsWith req.path "/api/hooks/" = false)
    (hinstall : pyStartsWith req.path "/api/install.sh" = false)
    (hcookie : validate_session_cookie hmacHex now req.cookie token = false)
    (hbearer : ¬ (pyStartsWith req.authHeader "Bearer " = true ∧
      req.authHeader.drop 7 = token)) :
    auth_middleware hmacHex now token req = AuthOutcome.errJson 401 "UNAUTHORIZED" ∧
    auth_middleware (fun _ _ => "") 0 "secret"
      { path := "/sessions", accept := "text/html", cookie := "",
        authHeader := "", queryToken := "" } =
      AuthOutcome.redirect "/login?next=/sessions" := by
  constructor
  · have h1 : pyStartsWith req.path "/healthz" = false :=
      pyStartsWith_false_of_conflict req.path "/api/" "/healthz" hapi
        (by decide) (by decide)
    have h2 : pyStartsWith req.path "/static/" = false :=
      pyStartsWith_false_of_conflict req.path "/api/" "/static/" hapi
        (by decide) (by decide)
    have h3 : pyStartsWith req.path "/login" = false :=
      pyStartsWith_false_of_conflict req.path "/api/" "/login" hapi
        (by decide) (by decide)
    have h4 : pyStartsWith req.path "/logout" = false :=
      pyStartsWith_false_of_conflict req.path "/api/" "/logout" hapi
        (by decide) (by decide)
    have hws : req.path ≠ "/ws" := by
      intro e
      rw [e] at hapi
      exact absurd hapi (by decide)
    have hbrowser : is_browser_request req = false := by
      simp [is_browser_request, hapi]
    simp [auth_middleware, NO_AUTH_PREFIXES, htok, h1, h2, h3, h4,
      hhooks, hinstall, hws, hcookie, hbearer, hbrowser]
  · decide

/-- Witness for `api_no_credentials_401` at a concrete credential-less
request to `/api/sessions`. -/
theorem api_no_credentials_401_witness :
    auth_middleware (fun _ _ => "") 0 "secret"
      { path := "/api/sessions", accept := "", cookie := "",
        authHeader := "", queryToken := "" } =
      AuthOutcome.errJson 401 "UNAUTHORIZED" ∧
    auth_middleware (fun _ _ => "") 0 "secret"
      { path := "/sessions", accept := "text/html", cookie := "",
        authHeader := "", queryToken := "" } =
      AuthOutcome.redirect "/login?next=/sessions" :=
  api_no_credentials_401 (fun _ _ => "") 0 "secret"
    { path := "/api/sessions", accept := "", cookie := "",
      authHeader := "", queryToken := "" }
    (by decide) (by decide) (by decide) (by decide) (by decide) (by decide)

/-- C8 counterexample: with filter `["X"]`, an event whose payload carries
the `name` field with value `""` — a field that is present and not equal
to `"X"` — is nevertheless sent: Python truthiness makes the send loop
treat the empty string as an absent name. -/
theorem ws_filter_empty_name_sent :
    ws_filter_allows ["X"] [("name", "")] = true ∧
    payloadGet [("name", "")] "name" = some "" ∧
    ("" : String) ≠ "X" := by
  decide

/-- C8 amended: a client whose most recent subscribe frame set a non-empty
filter is never sent an event whose effective session name — `payload.name`,
or `payload.session_name` when `name` is absent or falsy — is a non-empty
string outside the filter (empty-string fields count as absent); a client
whose filter is empty is sent every event of its queue. -/
theorem ws_filter_correct (frame : List String) (payload : WsPayload)
    (s : String) (hne : frame ≠ [])
    (hs : pyOrOpt (payloadGet payload "name")
      (payloadGet payload "session_name") = some s)
    (hst : s ≠ "") (hout : s ∉ frame) :
    (∀ q : List WsPayload,
       payload ∉ ws_send_batch (apply_subscribe (some frame)) q) ∧
    (∀ q : List WsPayload, ws_send_batch (apply_subscribe (some [])) q = q) := by
  have hallow : ws_filter_allows frame payload = false := by
    have hemp : frame.isEmpty = false := by
      cases frame with
      | nil => exact absurd rfl hne
      | cons a t => rfl
    simp only [ws_filter_allows, hemp, Bool.false_eq_true, if_false, hs]
    rw [if_pos]
    constructor
    · simp [truthyStr, hst]
    · simpa using hout
  constructor
  · intro q hq
    rw [ws_send_batch, List.mem_filter] at hq
    rw [apply_subscribe] at hq
    rw [hallow] at hq
    exact absurd hq.2 (by simp)
  · intro q
    rw [ws_send_batch, apply_subscribe, List.filter_eq_self]
    intro p _
    rfl

/-- Witness for `ws_filter_correct`: filter `["X"]`, an event named `"Y"`. -/
theorem ws_filter_correct_witness :
    [("name", "Y")] ∉ ws_send_batch (apply_subscribe (some ["X"]))
      [[("name", "Y")]] ∧
    ws_send_batch (apply_subscribe (some [])) [[("name", "Y")]] =
      [[("name", "Y")]] :=
  And.intro
    ((ws_filter_correct ["X"] [("name", "Y")] "Y" (by decide) (by decide)
        (by decide) (by decide)).1 [[("name", "Y")]])
    ((ws_filter_correct ["X"] [("name", "Y")] "Y" (by decide) (by decide)
        (by decide) (by decide)).2 [[("name", "Y")]])

/-- C9: in a provider's poll cycle, *usage.reset* is published for exactly
the limit kinds in {requests, input_tokens, output_tokens, tokens} whose
`remaining` strictly increased against the most recent prior snapshot with
status 200 or 429; `detect_reset` declares nothing when no such prior
snapshot exists. `hwf` records that a completely failed poll (status 0)
carries no parsed `remaining` values — `poll_provider`'s exception path
sets only error fields. -/
theorem usage_reset_iff_strict_increase (provider : String)
    (history : List UsageSnapshot) (snapshot : UsageSnapshot)
    (hwf : snapshot.poll_status_code = some 0 →
      ∀ lt, remainingOf snapshot lt = none) :
    (∀ lt,
      BusEvent.usageReset provider lt snapshot ∈
          usage_poll_provider_events provider history snapshot ↔
        (lt ∈ LIMIT_TYPES ∧
          ∃ prev, get_previous_snapshot history = some prev ∧
            ∃ c p, remainingOf snapshot lt = some c ∧
              remainingOf prev lt = some p ∧ p < c)) ∧
    (∀ s : UsageSnapshot, detect_reset s none = []) := by
  constructor
  · intro lt
    by_cases hsc : snapshot.poll_status_code = some 0
    · simp only [usage_poll_provider_events, hsc, if_pos, List.not_mem_nil,
        false_iff, not_and]
      intro _
      rintro ⟨prev, hprev, c, p, hc, hp, hlt⟩
      rw [hwf hsc lt] at hc
      cases hc
    · cases hprev : get_previous_snapshot history with
      | none =>
        simp [usage_poll_provider_events, hsc, detect_reset, hprev]
      | some prev =>
        rcases hc : remainingOf snapshot lt with _ | c <;>
          rcases hp : remainingOf prev lt with _ | p <;>
            simp [usage_poll_provider_events, hsc, detect_reset, hprev,
              List.mem_filter, hc, hp]
  · intro s
    rfl

/-- Witness for `usage_reset_iff_strict_increase`: a 429 snapshot with
requests exhausted followed by a 200 snapshot with requests recovered
declares a requests reset. -/
theorem usage_reset_iff_strict_increase_witness :
    BusEvent.usageReset "anthropic" "requests"
        { poll_status_code := some 200, requests_remaining := some 50 } ∈
      usage_poll_provider_events "anthropic"
        [{ poll_status_code := some 429, requests_remaining := some 0 }]
        { poll_status_code := some 200, requests_remaining := some 50 } :=
  ((usage_reset_iff_strict_increase "anthropic"
      [{ poll_status_code := some 429, requests_remaining := some 0 }]
      { poll_status_code := some 200, requests_remaining := some 50 }
      (by intro h; exact absurd h (by decide))).1 "requests").mpr
    ⟨by decide,
     ⟨{ poll_status_code := some 429, requests_remaining := some 0 }, rfl,
      50, 0, rfl, rfl, by decide⟩⟩

/-- C4: ingesting the same bridge event twice (here with the session
present, non-empty content, and no prior row carrying its fingerprint) is
idempotent — afterwards exactly one message row carries the event's
fingerprint, and across both ingests exactly one *message.new* is
published; and the fingerprint is exactly the spec's
`sha256("{source}:{source_id}")` when a platform-stable identifier exists,
otherwise `sha256("{session}:{source}:{content[:200]}")`. -/
theorem bridge_ingest_idempotent (sha : String → String)
    (parseIso : String → Option String) (now1 now2 : String)
    (ev : BridgeEvent) (db : Db)
    (htype : ¬ (ev.type.getD "" = "typing.start" ∨
      ev.type.getD "" = "typing.stop"))
    (hname : ¬ pyStrip (ev.session_name.getD "") = "")
    (hsess : (dbGet db.sessions (pyStrip (ev.session_name.getD ""))).isSome = true)
    (hcontent : ¬ pyStrip (ev.content.getD "") = "")
    (hfresh : ¬ ∃ r ∈ db.messages, r.dedup_hash =
        compute_dedup_hash sha (pyStrip (ev.session_name.getD ""))
          (coerce_source ev.platform) (pyOrOpt ev.source_id ev.external_id)
          (pyStrip (ev.content.getD ""))) :
    (((ingest_bridge_event sha parseIso now2 ev
        (ingest_bridge_event sha parseIso now1 ev db).1).1.messages.filter
        (fun r => r.dedup_hash ==
          compute_dedup_hash sha (pyStrip (ev.session_name.getD ""))
            (coerce_source ev.platform) (pyOrOpt ev.source_id ev.external_id)
            (pyStrip (ev.content.getD "")))).length = 1) ∧
    ((ingest_bridge_event sha parseIso now1 ev db).2 ++
      (ingest_bridge_event sha parseIso now2 ev
        (ingest_bridge_event sha parseIso now1 ev db).1).2 =
      [BusEvent.messageNew (pyStrip (ev.session_name.getD ""))
        (coerce_role ev.role) (pyStrip (ev.content.getD ""))
        (coerce_source ev.platform) (pyOrOpt ev.source_id ev.external_id)
        (ev.source_author.getD "") (eventTimestamp parseIso now1 ev.timestamp)]) ∧
    (∀ sn src sid c, compute_dedup_hash sha sn src sid c =
        dedup_fingerprint_spec sha sn src sid c) := by
  obtain ⟨v, hv⟩ := Option.isSome_iff_exists.mp hsess
  have h1 : ingest_bridge_event sha parseIso now1 ev db =
      ({ db with
          messages := db.messages ++
            [{ session_name := pyStrip (ev.session_name.getD ""),
               role := coerce_role ev.role,
               content := pyStrip (ev.content.getD ""),
               source := coerce_source ev.platform,
               source_id := pyOrOpt ev.source_id ev.external_id,
               source_author := ev.source_author.getD "",
               timestamp := eventTimestamp parseIso now1 ev.timestamp,
               ingested_at := now1,
               dedup_hash := compute_dedup_hash sha
                 (pyStrip (ev.session_name.getD ""))
                 (coerce_source ev.platform)
                 (pyOrOpt ev.source_id ev.external_id)
                 (pyStrip (ev.content.getD "")) }],
          eventsLog := db.eventsLog ++
            [{ event_type := ev.type.getD "bridge.event",
               session_name := pyStrip (ev.session_name.getD ""),
               payload := reprStr ev, created_at := now1 }] },
       [BusEvent.messageNew (pyStrip (ev.session_name.getD ""))
          (coerce_role ev.role) (pyStrip (ev.content.getD ""))
          (coerce_source ev.platform) (pyOrOpt ev.source_id ev.external_id)
          (ev.source_author.getD "") (eventTimestamp parseIso now1 ev.timestamp)]) := by
    simp [ingest_bridge_event, messages_insert_or_ignore, htype, hname,
      hcontent, hv, hfresh]
  have hdup : ∃ r ∈ db.messages ++
      [{ session_name := pyStrip (ev.session_name.getD ""),
         role := coerce_role ev.role,
         content := pyStrip (ev.content.getD ""),
         source := coerce_source ev.platform,
         source_id := pyOrOpt ev.source_id ev.external_id,
         source_author := ev.source_author.getD "",
         timestamp := eventTimestamp parseIso now1 ev.timestamp,
         ingested_at := now1,
         dedup_hash := compute_dedup_hash sha
           (pyStrip (ev.session_name.getD ""))
           (coerce_source ev.platform)
           (pyOrOpt ev.source_id ev.external_id)
           (pyStrip (ev.content.getD "")) : MessageRow }],
      r.dedup_hash = compute_dedup_hash sha (pyStrip (ev.session_name.getD ""))
        (coerce_source ev.platform) (pyOrOpt ev.source_id ev.external_id)
        (pyStrip (ev.content.getD "")) :=
    ⟨_, List.mem_append_right _ (List.mem_singleton_self _), rfl⟩
  have hnil : db.messages.filter
      (fun r => r.dedup_hash ==
        compute_dedup_hash sha (pyStrip (ev.session_name.getD ""))
          (coerce_source ev.platform) (pyOrOpt ev.source_id ev.external_id)
          (pyStrip (ev.content.getD ""))) = [] := by
    rw [List.filter_eq_nil_iff]
    intro a ha
    simp only [beq_iff_eq]
    exact fun he => hfresh ⟨a, ha, he⟩
  refine ⟨?_, ?_, ?_⟩
  · rw [h1]
    simp only [ingest_bridge_event, messages_insert_or_ignore, htype, hname,
      hcontent, hv, hdup]
    simp [htype, hname, hcontent, hv, hdup, List.filter_append, hnil]
  · rw [h1]
    simp only [ingest_bridge_event, messages_insert_or_ignore, htype, hname,
      hcontent, hv, hdup]
    simp [htype, hname, hcontent, hv, hdup]
  · intro sn src sid c
    cases sid with
    | none => rfl
    | some s =>
      by_cases hs : s = "" <;>
        simp [compute_dedup_hash, dedup_fingerprint_spec, truthyStr, hs]

/-- Witness for `bridge_ingest_idempotent`: the spec's replay event
`{type: message.relayed, session_name: demo, platform: discord,
content: hi, role: user, source_id: abc}` ingested twice against a store
holding session `demo` and no messages leaves exactly one row with the
event's fingerprint. -/
theorem bridge_ingest_idempotent_witness :
    (((ingest_bridge_event (fun s => s) (fun _ => none) "t2"
        { type := some "message.relayed", session_name := some "demo",
          platform := some "discord", content := some "hi",
          role := some "user", source_id := some "abc" }
        (ingest_bridge_event (fun s => s) (fun _ => none) "t1"
          { type := some "message.relayed", session_name := some "demo",
            platform := some "discord", content := some "hi",
            role := some "user", source_id := some "abc" }
          { sessions :=
              [{ name := "demo", host := "testhost", status := "active",
                 created_at := "t0", updated_at := "t0" }],
            messages := [], eventsLog := [] }).1).1.messages.filter
        (fun r => r.dedup_hash ==
          compute_dedup_hash (fun s => s) "demo" "discord"
            (some "abc") "hi")).length = 1) := by
  exact (bridge_ingest_idempotent (fun s => s) (fun _ => none) "t1" "t2"
    { type := some "message.relayed", session_name := some "demo",
      platform := some "discord", content := some "hi",
      role := some "user", source_id := some "abc" }
    { sessions :=
        [{ name := "demo", host := "testhost", status := "active",
           created_at := "t0", updated_at := "t0" }],
      messages := [], eventsLog := [] }
    (by decide) (by decide) (by decide) (by decide) (by decide)).1

/-- C10: every message row the bridge-webhook path stores has a role in
{user, assistant, system} and a source in {discord, slack, tmux, hook};
a supplied role outside the set is coerced to `user` and a supplied
platform outside {discord, slack, tmux} is coerced to source `hook` —
neither is rejected. -/
theorem bridge_row_role_source_enumerated (sha : String → String)
    (parseIso : String → Option String) (now : String)
    (ev : BridgeEvent) (db : Db) :
    (∀ r, r ∈ (ingest_bridge_event sha parseIso now ev db).1.messages →
      r ∈ db.messages ∨
        ((r.role = "user" ∨ r.role = "assistant" ∨ r.role = "system") ∧
         (r.source = "discord" ∨ r.source = "slack" ∨ r.source = "tmux" ∨
          r.source = "hook"))) ∧
    (∀ ro : String, ¬ (ro = "user" ∨ ro = "assistant" ∨ ro = "system") →
      coerce_role (some ro) = "user") ∧
    (∀ p : String, ¬ (p = "discord" ∨ p = "slack" ∨ p = "tmux") →
      coerce_source (some p) = "hook") := by
  have hrole : ∀ x, coerce_role x = "user" ∨ coerce_role x = "assistant" ∨
      coerce_role x = "system" := by
    intro x
    simp only [coerce_role]
    split
    · assumption
    · left
      rfl
  have hsource : ∀ x, coerce_source x = "discord" ∨ coerce_source x = "slack" ∨
      coerce_source x = "tmux" ∨ coerce_source x = "hook" := by
    intro x
    simp only [coerce_source]
    split
    · rcases ‹_ ∨ _ ∨ _› with h | h | h
      · exact Or.inl h
      · exact Or.inr (Or.inl h)
      · exact Or.inr (Or.inr (Or.inl h))
    · exact Or.inr (Or.inr (Or.inr rfl))
  refine ⟨?_, ?_, ?_⟩
  · intro r hr
    simp only [ingest_bridge_event] at hr
    split at hr
    · split at hr
      · split at hr <;> exact Or.inl hr
      · exact Or.inl hr
    · split at hr
      · exact Or.inl hr
      · split at hr
        · exact Or.inl hr
        · split at hr
          · exact Or.inl hr
          · simp only [messages_insert_or_ignore] at hr
            split at hr
            · exact Or.inl hr
            · simp only [List.mem_append, List.mem_singleton] at hr
              rcases hr with hr | hr
              · exact Or.inl hr
              · subst hr
                exact Or.inr ⟨hrole ev.role, hsource ev.platform⟩
  · intro ro hro
    unfold coerce_role
    simp [hro]
  · intro p hp
    unfold coerce_source
    simp [hp]

/-- Witness for `bridge_row_role_source_enumerated`: the out-of-range role
`bot` is stored as `user`, the out-of-range platform `telegram` as source
`hook`; and a concrete ingested row indeed lands in the enumerated sets. -/
theorem bridge_row_role_source_enumerated_witness :
    coerce_role (some "bot") = "user" ∧
    coerce_source (some "telegram") = "hook" :=
  And.intro
    ((bridge_row_role_source_enumerated (fun s => s) (fun _ => none) "t"
        {} { sessions := [], messages := [], eventsLog := [] }).2.1
      "bot" (by decide))
    ((bridge_row_role_source_enumerated (fun s => s) (fun _ => none) "t"
        {} { sessions := [], messages := [], eventsLog := [] }).2.2
      "telegram" (by decide))

/-- Primary-key lookup on a cons cell. -/
theorem dbGet_cons (x : SessionRow) (l : List SessionRow) (n : String) :
    dbGet (x :: l) n = if x.name = n then some x else dbGet l n := by
  by_cases hx : x.name = n <;> simp [dbGet, hx]

/-- Updating on a cons cell. -/
theorem dbUpdate_cons (r : SessionRow) (t : List SessionRow) (m : String)
    (f : SessionRow → SessionRow) :
    dbUpdate (r :: t) m f = (if r.name = m then f r else r) :: dbUpdate t m f :=
  rfl

/-- Appending a row of a different name leaves a lookup unchanged. -/
theorem dbGet_append_ne (db : List SessionRow) (row : SessionRow) (n : String)
    (h : row.name ≠ n) : dbGet (db ++ [row]) n = dbGet db n := by
  have hr : (([row] : List SessionRow).find? (fun r => r.name == n)) = none := by
    simp [h]
  simp [dbGet, List.find?_append, hr]

/-- Updating rows of a different name leaves a lookup unchanged (for
name-preserving updates). -/
theorem dbGet_dbUpdate_ne (db : List SessionRow) (m n : String)
    (f : SessionRow → SessionRow) (hf : ∀ x, (f x).name = x.name)
    (h : m ≠ n) : dbGet (dbUpdate db m f) n = dbGet db n := by
  induction db with
  | nil => rfl
  | cons r t ih =>
    by_cases hr : r.name = m
    · have hfn : (f r).name ≠ n := by rw [hf r, hr]; exact h
      have hrn : r.name ≠ n := by rw [hr]; exact h
      rw [dbUpdate_cons, if_pos hr, dbGet_cons, if_neg hfn,
        dbGet_cons, if_neg hrn, ih]
    · rw [dbUpdate_cons, if_neg hr, dbGet_cons, dbGet_cons, ih]

/-- Updating the looked-up name rewrites the found row (for name-preserving
updates). -/
theorem dbGet_dbUpdate_self (db : List SessionRow) (n : String)
    (f : SessionRow → SessionRow) (hf : ∀ x, (f x).name = x.name)
    (r : SessionRow) (h : dbGet db n = some r) :
    dbGet (dbUpdate db n f) n = some (f r) := by
  induction db with
  | nil => simp [dbGet] at h
  | cons x t ih =>
    by_cases hx : x.name = n
    · rw [dbGet_cons, if_pos hx] at h
      injection h with h'
      subst h'
      rw [dbUpdate_cons, if_pos hx, dbGet_cons, if_pos (by rw [hf x]; exact hx)]
    · rw [dbGet_cons, if_neg hx] at h
      rw [dbUpdate_cons, if_neg hx, dbGet_cons, if_neg hx, ih h]

/-- With pairwise-distinct names, looking up a member's name finds it. -/
theorem dbGet_mem_nodup (db : List SessionRow) (S : SessionRow)
    (hS : S ∈ db) (hnd : (db.map SessionRow.name).Nodup) :
    dbGet db S.name = some S := by
  induction db with
  | nil => cases hS
  | cons r t ih =>
    rw [List.map_cons, List.nodup_cons] at hnd
    rcases List.mem_cons.mp hS with rfl | hS'
    · simp [dbGet_cons]
    · have hr : r.name ≠ S.name := by
        intro he
        exact hnd.1 (by rw [he]; exact List.mem_map_of_mem _ hS')
      rw [dbGet_cons, if_neg hr]
      exact ih hS' hnd.2

/-- With pairwise-distinct names, the name determines the row. -/
theorem nodup_names_inj (db : List SessionRow)
    (hnd : (db.map SessionRow.name).Nodup) (r s : SessionRow)
    (hr : r ∈ db) (hs : s ∈ db) (he : r.name = s.name) : r = s := by
  have h1 := dbGet_mem_nodup db r hr hnd
  have h2 := dbGet_mem_nodup db s hs hnd
  rw [he] at h1
  rw [h1] at h2
  injection h2

/-- The discovery mutation leaves rows of other names unchanged. -/
theorem poll_new_apply_db_ne (sy : String → Option String × Option String)
    (cw : String → String → Option String) (now : String)
    (db : List SessionRow) (nh : String × String) (n : String)
    (h : nh.1 ≠ n) :
    dbGet (poll_new_apply sy cw now db nh) n = dbGet db n := by
  have hd : ∀ (dbx : List SessionRow) (t : String),
      dbGet (dbUpdate dbx nh.1
        (fun r => { r with discord_thread_id := some t })) n = dbGet dbx n :=
    fun dbx t => dbGet_dbUpdate_ne dbx nh.1 n _ (fun _ => rfl) h
  have hs : ∀ (dbx : List SessionRow) (t : String),
      dbGet (dbUpdate dbx nh.1
        (fun r => { r with slack_thread_ts := some t })) n = dbGet dbx n :=
    fun dbx t => dbGet_dbUpdate_ne dbx nh.1 n _ (fun _ => rfl) h
  have hw : ∀ (dbx : List SessionRow) (c : String),
      dbGet (dbUpdate dbx nh.1
        (fun r => { r with working_dir := some c })) n = dbGet dbx n :=
    fun dbx c => dbGet_dbUpdate_ne dbx nh.1 n _ (fun _ => rfl) h
  have h1 : dbGet (if (dbGet db nh.1).isSome then db
      else db ++ [{ name := nh.1, host := nh.2, status := "active",
                    created_at := now, updated_at := now : SessionRow }]) n
      = dbGet db n := by
    split
    · rfl
    · exact dbGet_append_ne _ _ _ h
  simp only [poll_new_apply]
  cases h2 : (sy nh.1).1 <;> cases h3 : (sy nh.1).2 <;>
    cases h4 : cw nh.2 nh.1 <;>
      simp only [h2, h3, h4, hd, hs, hw, h1]

/-- The discovery step leaves rows of other names unchanged. -/
theorem poll_new_step_db_ne (sy : String → Option String × Option String)
    (cw : String → String → Option String) (now : String)
    (dn : List String) (st : PollSt) (nh : String × String) (n : String)
    (h : nh.1 ≠ n) :
    dbGet (poll_new_step sy cw now dn st nh).db n = dbGet st.db n := by
  unfold poll_new_step
  split
  · rfl
  · cases hg : dbGet (poll_new_apply sy cw now st.db nh) nh.1 <;>
      simp [hg, poll_new_apply_db_ne sy cw now st.db nh n h]

/-- The discovery step only appends to the bus. -/
theorem poll_new_step_bus_mem (sy : String → Option String × Option String)
    (cw : String → String → Option String) (now : String)
    (dn : List String) (st : PollSt) (nh : String × String) (e : BusEvent)
    (h : e ∈ st.bus) : e ∈ (poll_new_step sy cw now dn st nh).bus := by
  unfold poll_new_step
  split
  · exact h
  · cases hg : dbGet (poll_new_apply sy cw now st.db nh) nh.1 <;>
      simp [hg, h]

/-- The discovery fold leaves rows absent from the live mapping unchanged. -/
theorem foldl_new_db_ne (sy : String → Option String × Option String)
    (cw : String → String → Option String) (now : String)
    (dn : List String) (live : List (String × String)) (st : PollSt)
    (n : String) (h : ∀ p ∈ live, p.1 ≠ n) :
    dbGet (live.foldl (poll_new_step sy cw now dn) st).db n = dbGet st.db n := by
  induction live generalizing st with
  | nil => rfl
  | cons p t ih =>
    rw [List.foldl_cons,
      ih _ (fun q hq => h q (List.mem_cons_of_mem p hq))]
    exact poll_new_step_db_ne sy cw now dn st p n (h p (List.mem_cons_self p t))

/-- The discovery fold only appends to the bus. -/
theorem foldl_new_bus_mem (sy : String → Option String × Option String)
    (cw : String → String → Option String) (now : String)
    (dn : List String) (live : List (String × String)) (st : PollSt)
    (e : BusEvent) (h : e ∈ st.bus) :
    e ∈ (live.foldl (poll_new_step sy cw now dn) st).bus := by
  induction live generalizing st with
  | nil => exact h
  | cons p t ih =>
    rw [List.foldl_cons]
    exact ih _ (poll_new_step_bus_mem sy cw now dn st p e h)

/-- `reactivateRow` never changes the primary key. -/
theorem reactivateRow_name (session : SessionRow) (host now : String)
    (r : SessionRow) : (reactivateRow session host now r).name = r.name := by
  unfold reactivateRow
  dsimp only
  split <;> split <;> rfl

/-- The update/close step leaves rows of other names unchanged. -/
theorem poll_existing_step_db_ne (live : List (String × String)) (now : String)
    (st : PollSt) (session : SessionRow) (n : String)
    (h : session.name ≠ n) :
    dbGet (poll_existing_step live now st session).db n = dbGet st.db n := by
  have hu : ∀ (f : SessionRow → SessionRow), (∀ x, (f x).name = x.name) →
      dbGet (dbUpdate st.db session.name f) n = dbGet st.db n :=
    fun f hf => dbGet_dbUpdate_ne st.db session.name n f hf h
  unfold poll_existing_step
  split
  next host heq =>
    have hr : dbGet (dbUpdate st.db session.name
        (reactivateRow session host now)) n = dbGet st.db n :=
      hu _ (reactivateRow_name session host now)
    split
    · cases hdm : dbGet (dbUpdate st.db session.name
          (reactivateRow session host now)) session.name <;>
        simp [hdm, hr]
    · exact hr
  next heq =>
    have hc : dbGet (dbUpdate st.db session.name (closeRow now)) n =
        dbGet st.db n := hu _ (fun _ => rfl)
    split
    · cases hdm : dbGet (dbUpdate st.db session.name (closeRow now))
          session.name <;>
        simp [hdm, hc]
    · rfl

/-- The update/close step only appends to the bus. -/
theorem poll_existing_step_bus_mem (live : List (String × String))
    (now : String) (st : PollSt) (session : SessionRow) (e : BusEvent)
    (h : e ∈ st.bus) :
    e ∈ (poll_existing_step live now st session).bus := by
  unfold poll_existing_step
  split
  next host heq =>
    split
    · cases hdm : dbGet (dbUpdate st.db session.name
          (reactivateRow session host now)) session.name <;>
        simp [hdm, h]
    · exact h
  next heq =>
    split
    · cases hdm : dbGet (dbUpdate st.db session.name (closeRow now))
          session.name <;>
        simp [hdm, h]
    · exact h

/-- The update/close fold leaves rows named outside the snapshot unchanged. -/
theorem foldl_existing_db_ne (live : List (String × String)) (now : String)
    (rows : List SessionRow) (st : PollSt) (n : String)
    (h : ∀ r ∈ rows, r.name ≠ n) :
    dbGet (rows.foldl (poll_existing_step live now) st).db n = dbGet st.db n := by
  induction rows generalizing st with
  | nil => rfl
  | cons r t ih =>
    rw [List.foldl_cons,
      ih _ (fun q hq => h q (List.mem_cons_of_mem r hq))]
    exact poll_existing_step_db_ne live now st r n (h r (List.mem_cons_self r t))

/-- The update/close fold only appends to the bus. -/
theorem foldl_existing_bus_mem (live : List (String × String)) (now : String)
    (rows : List SessionRow) (st : PollSt) (e : BusEvent) (h : e ∈ st.bus) :
    e ∈ (rows.foldl (poll_existing_step live now) st).bus := by
  induction rows generalizing st with
  | nil => exact h
  | cons r t ih =>
    rw [List.foldl_cons]
    exact ih _ (poll_existing_step_bus_mem live now st r e h)

/-- The discovery mutation cannot change a stored row's status: when the
name is already present the insert is ignored and the thread-id/cwd
updates touch only other columns. -/
theorem poll_new_apply_closed (sy : String → Option String × Option String)
    (cw : String → String → Option String) (now : String)
    (db : List SessionRow) (nh : String × String) (row : SessionRow)
    (hg : dbGet db nh.1 = some row) :
    ∃ row', dbGet (poll_new_apply sy cw now db nh) nh.1 = some row' ∧
      row'.status = row.status := by
  have hins : (dbGet db nh.1).isSome = true := by rw [hg]; rfl
  have S : ∀ (dbx : List SessionRow) (f : SessionRow → SessionRow)
      (r0 : SessionRow), (∀ x, (f x).name = x.name) →
      dbGet dbx nh.1 = some r0 →
      dbGet (dbUpdate dbx nh.1 f) nh.1 = some (f r0) :=
    fun dbx f r0 hf h0 => dbGet_dbUpdate_self dbx nh.1 f hf r0 h0
  simp only [poll_new_apply, hins, if_true]
  cases h2 : (sy nh.1).1 <;> cases h3 : (sy nh.1).2 <;>
    cases h4 : cw nh.2 nh.1 <;>
      simp only [h2, h3, h4] <;>
        first
          | exact ⟨_, hg, rfl⟩
          | exact ⟨_, S _ _ _ (fun _ => rfl) hg, rfl⟩
          | exact ⟨_, S _ _ _ (fun _ => rfl) (S _ _ _ (fun _ => rfl) hg), rfl⟩
          | exact ⟨_, S _ _ _ (fun _ => rfl)
              (S _ _ _ (fun _ => rfl) (S _ _ _ (fun _ => rfl) hg)), rfl⟩

/-- The discovery step preserves "this name's row exists and is closed". -/
theorem poll_new_step_closed (sy : String → Option String × Option String)
    (cw : String → String → Option String) (now : String)
    (dn : List String) (st : PollSt) (nh : String × String) (n : String)
    (hP : ∃ row, dbGet st.db n = some row ∧ row.status = "closed") :
    ∃ row, dbGet (poll_new_step sy cw now dn st nh).db n = some row ∧
      row.status = "closed" := by
  by_cases hn : nh.1 = n
  · unfold poll_new_step
    split
    · exact hP
    · obtain ⟨row, hg, hs⟩ := hP
      rw [← hn] at hg
      obtain ⟨row', hg', hs'⟩ := poll_new_apply_closed sy cw now st.db nh row hg
      dsimp only
      rw [hg']
      dsimp only
      rw [← hn]
      exact ⟨row', hg', hs'.trans hs⟩
  · obtain ⟨row, hg, hs⟩ := hP
    exact ⟨row, (poll_new_step_db_ne sy cw now dn st nh n hn).trans hg, hs⟩

/-- The discovery fold preserves "this name's row exists and is closed". -/
theorem foldl_new_closed (sy : String → Option String × Option String)
    (cw : String → String → Option String) (now : String)
    (dn : List String) (live : List (String × String)) (st : PollSt)
    (n : String)
    (hP : ∃ row, dbGet st.db n = some row ∧ row.status = "closed") :
    ∃ row, dbGet (live.foldl (poll_new_step sy cw now dn) st).db n =
      some row ∧ row.status = "closed" := by
  induction live generalizing st with
  | nil => exact hP
  | cons p t ih =>
    rw [List.foldl_cons]
    exact ih _ (poll_new_step_closed sy cw now dn st p n hP)

/-- C5: for a stored session S (name primary key) on a reconciler tick:
(a) if S is active and absent from every host listing, its row transitions
to closed with `closed_at` set to this tick's timestamp and a
*session.closed* event is published; (b) if S is already closed and still
absent, the tick leaves its row exactly unchanged — so the active→closed
transition happens at most once across successive ticks; (c) a closed S is
never brought back to active by the reconciler, whether or not its name
reappears in a listing. -/
theorem reconciler_close_monotone
    (sy : String → Option String × Option String)
    (cw : String → String → Option String) (now : String)
    (live : List (String × String)) (db0 : List SessionRow) (S : SessionRow)
    (hS : S ∈ db0) (hnd : (db0.map SessionRow.name).Nodup) :
    (S.status = "active" → (∀ p ∈ live, p.1 ≠ S.name) →
      dbGet (poll_once sy cw now live db0).db S.name =
        some { S with status := "closed", closed_at := some now,
                      updated_at := now } ∧
      BusEvent.sessionClosed
          { S with status := "closed", closed_at := some now,
                   updated_at := now } ∈
        (poll_once sy cw now live db0).bus) ∧
    (S.status = "closed" → (∀ p ∈ live, p.1 ≠ S.name) →
      dbGet (poll_once sy cw now live db0).db S.name = some S) ∧
    (S.status = "closed" →
      ∃ row, dbGet (poll_once sy cw now live db0).db S.name = some row ∧
        row.status = "closed") := by
  have h0 : dbGet db0 S.name = some S := dbGet_mem_nodup db0 S hS hnd
  set snapshot := db0.filter (fun r => r.status != "closed") with hsnap
  set dbNames := snapshot.map (fun r => r.name) with hdbn
  set st1 := live.foldl (poll_new_step sy cw now dbNames)
    ({ db := db0, bus := [], log := [] } : PollSt) with hst1
  have hponce : poll_once sy cw now live db0 =
      snapshot.foldl (poll_existing_step live now) st1 := rfl
  have hsnap_ne : S.status = "closed" → ∀ r ∈ snapshot, r.name ≠ S.name := by
    intro hclosed r hr he
    have hrdb : r ∈ db0 := (List.mem_filter.mp hr).1
    have hrS : r = S := nodup_names_inj db0 hnd r S hrdb hS he
    have hpred := (List.mem_filter.mp hr).2
    rw [hrS, hclosed] at hpred
    exact absurd hpred (by decide)
  refine ⟨?_, ?_, ?_⟩
  · intro hact hlive
    have hmem : S ∈ snapshot :=
      List.mem_filter.mpr ⟨hS, by rw [hact]; rfl⟩
    have h1 : dbGet st1.db S.name = some S := by
      rw [hst1, foldl_new_db_ne sy cw now dbNames live _ S.name hlive]
      exact h0
    obtain ⟨l₁, l₂, hsplit⟩ := List.append_of_mem hmem
    have hsnd : (snapshot.map SessionRow.name).Nodup :=
      hnd.sublist ((List.filter_sublist db0).map SessionRow.name)
    rw [hsplit, List.map_append, List.map_cons, List.nodup_append] at hsnd
    have h_l1 : ∀ r ∈ l₁, r.name ≠ S.name := by
      intro r hr he
      exact hsnd.2.2 (List.mem_map_of_mem _ hr)
        (by rw [he]; exact List.mem_cons_self _ _)
    have h_l2 : ∀ r ∈ l₂, r.name ≠ S.name := by
      intro r hr he
      exact (List.nodup_cons.mp hsnd.2.1).1
        (by rw [← he]; exact List.mem_map_of_mem _ hr)
    rw [hponce, hsplit, List.foldl_append, List.foldl_cons]
    set sta := l₁.foldl (poll_existing_step live now) st1 with hsta
    have h2 : dbGet sta.db S.name = some S := by
      rw [hsta, foldl_existing_db_ne live now l₁ st1 S.name h_l1]
      exact h1
    have hlook : lookupLive live S.name = none := by
      have hf : live.find? (fun p => p.1 == S.name) = none :=
        List.find?_eq_none.mpr (fun p hp => by simp [hlive p hp])
      simp [lookupLive, hf]
    have hdb1 : dbGet (dbUpdate sta.db S.name (closeRow now)) S.name =
        some (closeRow now S) :=
      dbGet_dbUpdate_self sta.db S.name (closeRow now) (fun _ => rfl) S h2
    have hstep : poll_existing_step live now sta S =
        { db := dbUpdate sta.db S.name (closeRow now),
          bus := sta.bus ++ [BusEvent.sessionClosed (closeRow now S)],
          log := sta.log ++
            [{ event_type := "session.closed", session_name := S.name,
               payload := hostJson S.host, created_at := now }] } := by
      unfold poll_existing_step
      rw [hlook]
      dsimp only
      rw [if_pos (by rw [hact]; decide)]
      rw [hdb1]
    rw [hstep]
    constructor
    · rw [foldl_existing_db_ne live now l₂ _ S.name h_l2]
      dsimp only
      exact hdb1
    · apply foldl_existing_bus_mem
      dsimp only
      exact List.mem_append_right _ (List.mem_singleton_self _)
  · intro hclosed hlive
    rw [hponce,
      foldl_existing_db_ne live now snapshot st1 S.name (hsnap_ne hclosed),
      hst1, foldl_new_db_ne sy cw now dbNames live _ S.name hlive]
    exact h0
  · intro hclosed
    have hP1 : ∃ row, dbGet st1.db S.name = some row ∧
        row.status = "closed" := by
      rw [hst1]
      exact foldl_new_closed sy cw now dbNames live _ S.name ⟨S, h0, hclosed⟩
    obtain ⟨row, hgr, hsr⟩ := hP1
    refine ⟨row, ?_, hsr⟩
    rw [hponce,
      foldl_existing_db_ne live now snapshot st1 S.name (hsnap_ne hclosed)]
    exact hgr

/-- Witness for `reconciler_close_monotone`: an active `demo` session
absent from an empty live listing is closed on the tick. -/
theorem reconciler_close_monotone_witness :
    dbGet (poll_once (fun _ => (none, none)) (fun _ _ => none) "t1" []
        [{ name := "demo", host := "testhost", status := "active",
           created_at := "t0", updated_at := "t0" }]).db "demo" =
      some { name := "demo", host := "testhost", status := "closed",
             created_at := "t0", updated_at := "t1",
             closed_at := some "t1" } := by
  exact ((reconciler_close_monotone (fun _ => (none, none)) (fun _ _ => none)
      "t1" []
      [{ name := "demo", host := "testhost", status := "active",
         created_at := "t0", updated_at := "t0" }]
      { name := "demo", host := "testhost", status := "active",
        created_at := "t0", updated_at := "t0" }
      (List.mem_singleton_self _) (by decide)).1 rfl
    (fun p hp => absurd hp (List.not_mem_nil p))).1

end Aily
